import Mathlib

/-!
Verification of the SensorReader collection scheduler
(`src/Code/SensorReader/v0.4/SensorReader.py`, with the historical
`v0.1/SensorReader.py` where the claims reference it).

The Python module is shallowly embedded: each method that a claim is about
becomes a Lean function over explicit state; exceptions become `Option PyErr`
or `Except PyErr`; sensor-hardware and network calls (which the spec treats
as external capabilities) are abstracted as parameters, while the I/O actions
the scheduler performs are recorded as an ordered `List Event` trace.
Numeric sensor values are modelled as `ℚ` (the claims are stated at the level
of the arithmetic formulas, not of binary floating point rounding).
-/

/-- Python exception classes that the embedded code can raise. -/
inductive PyErr
  | typeError
  | valueError
  | systemError
  | zeroDivisionError
deriving DecidableEq, Repr

/-- Observable I/O actions of `BaseReader.start_collection` and its callees,
in the order the source performs them. -/
inductive Event
  | connTest          -- self.test_connection()
  | waitMinute        -- self.wait_next_minute()
  | uploadThread      -- Thread(target=self.start_dropbox_upload, ...).start()
  | updateFileThread  -- Thread(target=self.update_output_file, ...).start()
  | dbInsert          -- self.upload_to_database(output)
deriving DecidableEq, Repr

/-- A request dictionary as used by `IrradianceReader` (v0.4 lines 1157-1162):
keys `name`, `type`, `channel`. -/
structure Request where
  name : String
  rtype : String
  channel : Nat
deriving DecidableEq, Repr

/-- The cached per-reader attributes of `IrradianceReader`
(v0.4 lines 1164-1166: `temperature = None`, `mini_voltage = None`). -/
structure IrrState where
  mini_voltage : Option ℚ
  temperature : Option ℚ
deriving DecidableEq, Repr

/-- Initial attribute state of a fresh `IrradianceReader`:
both caches are `None` (v0.4 lines 1165-1166). -/
def initIrrState : IrrState := ⟨none, none⟩

/-- The combined hardware client `AdcRtd_Client` (v0.4 lines 31-49), abstracted
as the pure reading functions it exposes: `read_adc(channel, pga, sps)` and
`read_rtd()`. -/
structure AdcRtd_Client where
  read_adc : Nat → ℤ → ℤ → ℚ
  read_rtd : ℚ

/-- `IrradianceReader.execute_request` (v0.4 lines 1286-1313).
`'I2C'` reads the ADC and caches `mini_voltage`; `'SPI'` reads the RTD and
caches `temperature`; `'derived'` computes
`mini_voltage / 54.57 * 1000 / (1 + 0.0005 * (temperature - 25))` from the
cached attributes, raising `TypeError` when a cache is still `None`
(Python `None / float`), and `ZeroDivisionError` when the denominator is zero;
any other type string falls through and returns `None`. -/
def execute_request (client : AdcRtd_Client) (pga sps : ℤ) (st : IrrState)
    (request : Request) : IrrState × Except PyErr (Option ℚ) :=
  if request.rtype = "I2C" then
    let v := client.read_adc request.channel pga sps
    ({ st with mini_voltage := some v }, .ok (some v))
  else if request.rtype = "SPI" then
    let t := client.read_rtd
    ({ st with temperature := some t }, .ok (some t))
  else if request.rtype = "derived" then
    match st.mini_voltage, st.temperature with
    | some v, some t =>
        if (1 + 0.0005 * (t - 25) : ℚ) = 0 then (st, .error .zeroDivisionError)
        else (st, .ok (some (v / 54.57 * 1000 / (1 + 0.0005 * (t - 25)))))
    | _, _ => (st, .error .typeError)
  else (st, .ok none)

/-- The request loop inside `BaseReader.get_output_row` (v0.4 lines 318-322):
executes the requests in order, threading the reader state, collecting one
result per request; the first exception propagates. -/
def run_requests (client : AdcRtd_Client) (pga sps : ℤ) :
    IrrState → List Request → Except PyErr (IrrState × List (Option ℚ))
  | st, [] => .ok (st, [])
  | st, request :: rest =>
    match execute_request client pga sps st request with
    | (st', .ok v) =>
        match run_requests client pga sps st' rest with
        | .ok (st'', vs) => .ok (st'', v :: vs)
        | .error e => .error e
    | (_, .error e) => .error e

/-- Python `str()` on a reading result: `str(None)` is `"None"`, numeric
values render via their decimal representation (abstracted by `toString`). -/
def pyStr : Option ℚ → String
  | none => "None"
  | some q => toString q

/-- `BaseReader.get_output_row` (v0.4 lines 294-329): builds
`[date_stamp, time_stamp]`, appends `str(result)` for each request in order,
joins with the delimiter and terminates with `'\n'`; when database settings
are present it also performs `upload_to_database` (recorded as an event). -/
def get_output_row (client : AdcRtd_Client) (pga sps : ℤ)
    (delimiter date_stamp time_stamp : String) (database_enabled : Bool)
    (st : IrrState) (requests : List Request) :
    Except PyErr (IrrState × String × List Event) :=
  match run_requests client pga sps st requests with
  | .error e => .error e
  | .ok (st', results) =>
      let output := [date_stamp, time_stamp] ++ results.map pyStr
      let row_string := String.intercalate delimiter output ++ "\n"
      .ok (st', row_string, if database_enabled then [Event.dbInsert] else [])

/-- `BaseReader.get_header` (v0.4 lines 457-480):
`'date_stamp' + delim + 'time_stamp' + delim + delim.join(names) + '\n'`. -/
def get_header (delimiter : String) (requests : List Request) : String :=
  "date_stamp" ++ delimiter ++ "time_stamp" ++ delimiter
    ++ String.intercalate delimiter (requests.map Request.name) ++ "\n"

/-! ### The output file (`BaseReader.read_all_requests`, v0.4 lines 331-353)

The file is modelled as its list of lines (every write in the source is a
full `'\n'`-terminated line).  One call of `read_all_requests` opens the file
in `'ab+'` mode, compares the first line (`readline()`) against
`self.header_row`, appends the header when they differ, then appends the data
row.  Alongside the file we count how many times the header was written. -/

/-- One `read_all_requests` file transaction (v0.4 lines 346-350) applied to
`(file lines, header writes so far)` for one data row. -/
def read_all_requests_step (header_row : String) (acc : List String × Nat)
    (row_string : String) : List String × Nat :=
  if acc.1.head? = some header_row then (acc.1 ++ [row_string], acc.2)
  else (acc.1 ++ [header_row, row_string], acc.2 + 1)

/-- The file produced by the collection loop after writing the given data
rows, one per tick, starting from the empty (freshly created) file. -/
def collection_file (header_row : String) (rows : List String) :
    List String × Nat :=
  rows.foldl (read_all_requests_step header_row) ([], 0)

/-! ### Date stamps

v0.4 stamps rows and filenames with `datetime.now().strftime('%y%m%d')`
(lines 315, 494); v0.1 stamps its data rows with `strftime('%d%m%y')`
(line 154) while its filenames use `'%y%m%d'` (line 363).  `strftime`'s
`%y`, `%m`, `%d` each render as two zero-padded decimal digits. -/

/-- The two zero-padded decimal digit characters of `n % 100`
(the rendering of each of `%y`, `%m`, `%d`). -/
def two_digit_chars (n : Nat) : List Char :=
  [Char.ofNat (48 + n / 10 % 10), Char.ofNat (48 + n % 10)]

/-- `strftime('%y%m%d')` for year `y`, month `m`, day `d` (v0.4 date stamp). -/
def strf_yymmdd (y m d : Nat) : String :=
  String.mk (two_digit_chars y ++ two_digit_chars m ++ two_digit_chars d)

/-- `strftime('%d%m%y')` for year `y`, month `m`, day `d` (the v0.1 data-row
date stamp, `SensorReader.py` v0.1 line 154). -/
def strf_ddmmyy (y m d : Nat) : String :=
  String.mk (two_digit_chars d ++ two_digit_chars m ++ two_digit_chars y)

/-- The data row built by v0.1 `read_all_requests` (v0.1 lines 153-168):
`[strftime('%d%m%y'), strftime('%H:%M:%S')] ++ [str(r) for r in results]`
joined by the delimiter, `'\n'`-terminated. -/
def read_all_requests_row_v01 (delimiter time_stamp : String) (y m d : Nat)
    (results : List (Option ℚ)) : String :=
  String.intercalate delimiter
    ([strf_ddmmyy y m d, time_stamp] ++ results.map pyStr) ++ "\n"

/-! ### Output filename and rotation (`BaseReader.update_output_file`) -/

/-- The output filename built by `update_output_file` (v0.4 lines 496-498):
`output_file_folder + '/' + '_'.join([date_stamp, sensor_name,
sensor_location]) + output_file_ext`. -/
def mk_output_filename (folder sensor_name sensor_location ext date_stamp :
    String) : String :=
  folder ++ "/" ++ (String.intercalate "_" [date_stamp, sensor_name,
    sensor_location] ++ ext)

/-- `BaseReader.update_output_file` (v0.4 lines 482-502).  Arguments: the
reader's filename configuration, the `previous_date` argument (`None` before
the first tick), the current `strftime('%y%m%d')` stamp, and the current
`self.output_filename`.  Returns the new `self.output_filename` and the list
of dropbox uploads the call submits.  The source renames the file when the
date stamp differs from `previous_date`, and then — guarded only by
`previous_date is not None` — uploads `previous_output_filename`. -/
def update_output_file (folder sensor_name sensor_location ext : String)
    (previous_date : Option String) (date_stamp : String)
    (output_filename : String) : String × List String :=
  let previous_output_filename := output_filename
  let new_filename :=
    if some date_stamp ≠ previous_date then
      mk_output_filename folder sensor_name sensor_location ext date_stamp
    else output_filename
  let uploads :=
    if previous_date.isSome then [previous_output_filename] else []
  (new_filename, uploads)

/-! ### `BaseReader.start_collection` (v0.4 lines 504-601)

The validation prologue and loop-exit handler, with the I/O the call performs
recorded as an `Event` trace.  A Python argument that may fail the
`type(x) is not int` check is modelled by `PyNum`. -/

/-- A Python value passed where an `int` is expected: either an actual `int`
or a value of some other type. -/
inductive PyNum
  | int (n : ℤ)
  | notInt
deriving DecidableEq, Repr

/-- The prologue of `BaseReader.start_collection` (v0.4 lines 551-581), from
entry to just before the `while True` loop: connection test first
(`SystemError` on failure), then `read_interval` type and range checks, then
— only when `self.dropbox_settings` is set — the `upload_interval` type check
and the `upload_interval < read_interval` check, then the `print_output`
type check; on success it waits for the minute boundary, starts the dropbox
upload thread when configured, and starts the first `update_output_file`
thread.  Returns the event trace together with the raised error, if any.
`database_configured` is accepted because the reader may hold database
settings, but the source's validation never consults it. -/
def start_collection_v04 (conn_ok dropbox_configured database_configured :
    Bool) (read_interval upload_interval : PyNum)
    (print_output_is_bool : Bool) : List Event × Option PyErr :=
  if conn_ok = false then ([.connTest], some .systemError)
  else
    match read_interval with
    | .notInt => ([.connTest], some .typeError)
    | .int n =>
      if 86400 < n ∨ n ≤ 0 then ([.connTest], some .valueError)
      else
        let upload_check : Option PyErr :=
          if dropbox_configured then
            match upload_interval with
            | .notInt => some .typeError
            | .int m => if m < n then some .valueError else none
          else none
        match upload_check with
        | some e => ([.connTest], some e)
        | none =>
          if print_output_is_bool = false then ([.connTest], some .typeError)
          else
            ([.connTest, .waitMinute]
              ++ (if dropbox_configured then [.uploadThread] else [])
              ++ [.updateFileThread], none)

/-- How a `start_collection` call ends. -/
inductive RunResult
  | fatal (e : PyErr)
  | stopped (reason : String)
deriving DecidableEq, Repr

/-- `BaseReader.start_collection` end to end (v0.4 lines 551-601): the
validation prologue, then — abstracting the `while True` loop as eventually
raising the exception named `loop_exception` — the `except` handler
(lines 596-601), which re-runs `test_connection()` and raises `SystemError`
when it is false, otherwise prints the original exception's name and returns
normally (`RunResult.stopped`).  `conn_after` is the value the re-check
returns. -/
def start_collection_run (conn_ok dropbox_configured database_configured :
    Bool) (read_interval upload_interval : PyNum)
    (print_output_is_bool : Bool) (loop_exception : String)
    (conn_after : Bool) : List Event × RunResult :=
  match start_collection_v04 conn_ok dropbox_configured database_configured
      read_interval upload_interval print_output_is_bool with
  | (events, some e) => (events, .fatal e)
  | (events, none) =>
    if conn_after then (events ++ [.connTest], .stopped loop_exception)
    else (events ++ [.connTest], .fatal .systemError)

/-! ### `ModbusSerialReader.decode`

The pymodbus `BinaryPayloadDecoder` call is an external capability; its
outcome is abstracted as `Option α`: `some v` when the registers decode to
`v`, `none` when the decoder raises. -/

/-- `ModbusSerialReader.decode` of v0.4 (lines 852-877):
`try: return decoder(response.registers) except: raise ValueError(...)`. -/
def decode_v04 {α : Type} (decoder_result : Option α) : Except PyErr α :=
  match decoder_result with
  | some v => .ok v
  | none => .error .valueError

/-- `ModbusSerialReader.decode` of v0.1 (lines 622-648):
`try: return decoder(response.registers) except: return 0` — the
`raise ValueError('Invalid output decoded')` on the next line is unreachable
dead code, so a failed decode yields the sentinel `0`. -/
def decode_v01 (decoder_result : Option ℤ) : Except PyErr ℤ :=
  match decoder_result with
  | some v => .ok v
  | none => .ok 0

/-- The invalid-configuration predicate of claim C4, restricted to the
conditions the source can detect: `read_interval` is not an `int` in
`[1, 86400]`, or the dropbox sink is configured and `upload_interval` is not
an `int` that is at least `read_interval`. -/
def invalid_intervals (dropbox_configured : Bool)
    (read_interval upload_interval : PyNum) : Bool :=
  match read_interval with
  | .notInt => true
  | .int n =>
    (decide (86400 < n) || decide (n ≤ 0)) ||
      (dropbox_configured &&
        (match upload_interval with
         | .notInt => true
         | .int m => decide (m < n)))

/-! ## Helper lemmas -/

/-- A character `'0'..'9'` built from a digit value is a decimal digit. -/
lemma char_ofNat_digit : ∀ k, k < 10 → (Char.ofNat (48 + k)).isDigit = true := by
  decide

/-- Both characters of a `%y` / `%m` / `%d` rendering are decimal digits. -/
lemma two_digit_chars_digit (n : Nat) :
    ∀ c ∈ two_digit_chars n, c.isDigit = true := by
  intro c hc
  simp only [two_digit_chars, List.mem_cons, List.mem_singleton] at hc
  rcases hc with h | h | h
  · subst h; exact char_ofNat_digit _ (Nat.mod_lt _ (by norm_num))
  · subst h; exact char_ofNat_digit _ (Nat.mod_lt _ (by norm_num))
  · cases h

/-- Once the header is the first line of the file, further
`read_all_requests` transactions only append data rows. -/
lemma collection_file_aux (header_row : String) (rows : List String) :
    ∀ (tail : List String) (w : Nat),
      rows.foldl (read_all_requests_step header_row) (header_row :: tail, w)
        = (header_row :: (tail ++ rows), w) := by
  induction rows with
  | nil => intro tail w; simp
  | cons r rs ih =>
    intro tail w
    have hstep : read_all_requests_step header_row (header_row :: tail, w) r
        = (header_row :: (tail ++ [r]), w) := by
      simp [read_all_requests_step]
    simp only [List.foldl, hstep, ih (tail ++ [r]) w, List.append_assoc,
      List.singleton_append]

/-- A successful request loop returns one result per request. -/
lemma run_requests_length (client : AdcRtd_Client) (pga sps : ℤ) :
    ∀ (requests : List Request) (st st' : IrrState)
      (results : List (Option ℚ)),
      run_requests client pga sps st requests = .ok (st', results) →
      results.length = requests.length := by
  intro requests
  induction requests with
  | nil =>
    intro st st' results h
    simp only [run_requests, Except.ok.injEq, Prod.mk.injEq] at h
    rw [← h.2]
    rfl
  | cons r rs ih =>
    intro st st' results h
    simp only [run_requests] at h
    cases he : execute_request client pga sps st r with
    | mk st1 res =>
      rw [he] at h
      cases res with
      | error e => simp at h
      | ok v =>
        dsimp only at h
        cases hr : run_requests client pga sps st1 rs with
        | error e => rw [hr] at h; simp at h
        | ok p =>
          cases p with
          | mk st2 vs =>
            rw [hr] at h
            simp only [Except.ok.injEq, Prod.mk.injEq] at h
            rw [← h.2]
            simp [ih st1 st2 vs hr]

/-! ## Claim theorems -/

/-- Claim C1 (code bug).  The source comment in `update_output_file`
(v0.4 line 500) says the upload of the previous file should happen because
"A new day has arrived", but the guard only tests `previous_date is not
None`.  First conjunct: on a tick whose date stamp equals the previous
tick's date stamp (`some "250101"` vs `"250101"`), the call still submits an
upload of the (still active) file — the claim says it submits none.  Second
conjunct: on the one tick straddling the day boundary, the call renames the
output file and submits exactly one upload of the file that just closed,
as claimed. -/
theorem c1_update_output_file_uploads_every_tick :
    (update_output_file "Outputs" "sensor" "location" ".csv" (some "250101")
        "250101" "Outputs/250101_sensor_location.csv").2
      = ["Outputs/250101_sensor_location.csv"] ∧
    update_output_file "Outputs" "sensor" "location" ".csv" (some "250101")
        "250102" "Outputs/250101_sensor_location.csv"
      = ("Outputs/250102_sensor_location.csv",
         ["Outputs/250101_sensor_location.csv"]) := by
  constructor
  · rfl
  · rfl

/-- Claim C2: for every file produced by the collection loop, the header row
is written exactly once (the write counter is `1`), as the first line,
before any data row (the file is exactly `header :: rows`), and the header's
column order is `date_stamp`, `time_stamp`, then the request names in
RequestSet order. -/
theorem c2_header_once_first_line (delimiter : String)
    (requests : List Request) (rows : List String) (h : rows ≠ []) :
    collection_file (get_header delimiter requests) rows
      = (get_header delimiter requests :: rows, 1) ∧
    get_header delimiter requests
      = "date_stamp" ++ delimiter ++ "time_stamp" ++ delimiter
          ++ String.intercalate delimiter (requests.map Request.name)
          ++ "\n" := by
  refine ⟨?_, rfl⟩
  cases rows with
  | nil => exact absurd rfl h
  | cons r rs =>
    have h0 : read_all_requests_step (get_header delimiter requests) ([], 0) r
        = ([get_header delimiter requests, r], 1) := by
      simp [read_all_requests_step]
    calc collection_file (get_header delimiter requests) (r :: rs)
        = List.foldl (read_all_requests_step (get_header delimiter requests))
            ([get_header delimiter requests, r], 1) rs := by
          simp only [collection_file, List.foldl, h0]
      _ = (get_header delimiter requests :: r :: rs, 1) := by
          rw [show ([get_header delimiter requests, r] : List String)
              = get_header delimiter requests :: [r] from rfl]
          rw [collection_file_aux]
          simp

/-- Claim C2 witness: a concrete one-request, one-tick run. -/
theorem c2_header_once_first_line_witness :
    collection_file (get_header "," [⟨"irradiance", "derived", 0⟩]) ["x\n"]
      = (get_header "," [⟨"irradiance", "derived", 0⟩] :: ["x\n"], 1) ∧
    get_header "," [⟨"irradiance", "derived", 0⟩]
      = "date_stamp" ++ "," ++ "time_stamp" ++ ","
          ++ String.intercalate ","
              (([⟨"irradiance", "derived", 0⟩] : List Request).map
                Request.name) ++ "\n" :=
  c2_header_once_first_line "," [⟨"irradiance", "derived", 0⟩] ["x\n"]
    (by decide)

/-- Claim C6 (code bug).  A register response whose decoder raises
(modelled as `none`) makes v0.1's `ModbusSerialReader.decode` return the
sentinel `0` — its `raise ValueError` on the following line is unreachable —
while v0.4's `decode` raises `ValueError` as the claim requires. -/
theorem c6_decode_sentinel_zero :
    decode_v01 none = .ok 0 ∧
    decode_v04 (none : Option ℤ) = .error PyErr.valueError :=
  ⟨rfl, rfl⟩

/-- Claim C9: on a fresh `IrradianceReader` (both caches `None`), executing a
`'derived'` request before any `'I2C'` and `'SPI'` request raises `TypeError`
instead of returning a value. -/
theorem c9_derived_without_raw_type_error (client : AdcRtd_Client)
    (pga sps : ℤ) (nm : String) (ch : Nat) :
    execute_request client pga sps initIrrState ⟨nm, "derived", ch⟩
      = (initIrrState, .error PyErr.typeError) := rfl

/-- Claim C3: executing an `'I2C'`, then an `'SPI'`, then a `'derived'`
request in order, the derived value equals
`mini_voltage / 54.57 * 1000 / (1 + 0.0005 * (temperature - 25))` applied to
the two values cached by the earlier requests of the same tick, and the
output row carries the three values in request order. -/
theorem c3_derived_value_and_row_order (client : AdcRtd_Client) (pga sps : ℤ)
    (delimiter date_stamp time_stamp n1 n2 n3 : String) (ch ch2 ch3 : Nat)
    (db : Bool) (st : IrrState)
    (hden : (1 + 0.0005 * (client.read_rtd - 25) : ℚ) ≠ 0) :
    get_output_row client pga sps delimiter date_stamp time_stamp db st
        [⟨n1, "I2C", ch⟩, ⟨n2, "SPI", ch2⟩, ⟨n3, "derived", ch3⟩]
      = .ok (⟨some (client.read_adc ch pga sps), some client.read_rtd⟩,
          String.intercalate delimiter
            [date_stamp, time_stamp,
             pyStr (some (client.read_adc ch pga sps)),
             pyStr (some client.read_rtd),
             pyStr (some (client.read_adc ch pga sps / 54.57 * 1000
               / (1 + 0.0005 * (client.read_rtd - 25))))] ++ "\n",
          if db then [Event.dbInsert] else []) := by
  simp [get_output_row, run_requests, execute_request, hden]

/-- Claim C3 witness: a concrete client reading `mini_voltage = 5` and
`temperature = 30`. -/
theorem c3_derived_value_and_row_order_witness :
    get_output_row ⟨fun _ _ _ => (5 : ℚ), 30⟩ 1 1 "," "251012" "12:00:00"
        false initIrrState
        [⟨"mv", "I2C", 2⟩, ⟨"t", "SPI", 0⟩, ⟨"irr", "derived", 0⟩]
      = .ok (⟨some 5, some 30⟩,
          String.intercalate ","
            ["251012", "12:00:00", pyStr (some 5), pyStr (some 30),
             pyStr (some ((5 : ℚ) / 54.57 * 1000
               / (1 + 0.0005 * ((30 : ℚ) - 25))))] ++ "\n",
          []) :=
  c3_derived_value_and_row_order ⟨fun _ _ _ => (5 : ℚ), 30⟩ 1 1 ","
    "251012" "12:00:00" "mv" "t" "irr" 2 0 0 false initIrrState
    (by norm_num)

/-- Claim C10: a request whose `'type'` is none of `'I2C'`, `'SPI'`,
`'derived'` makes `IrradianceReader.execute_request` fall through and return
`None` without raising, and the collection loop serializes that `None` into
the output row as the literal string `"None"`. -/
theorem c10_unknown_type_returns_none (client : AdcRtd_Client) (pga sps : ℤ)
    (delimiter date_stamp time_stamp nm ty : String) (ch : Nat) (db : Bool)
    (st : IrrState) (h1 : ty ≠ "I2C") (h2 : ty ≠ "SPI")
    (h3 : ty ≠ "derived") :
    execute_request client pga sps st ⟨nm, ty, ch⟩ = (st, .ok none) ∧
    get_output_row client pga sps delimiter date_stamp time_stamp db st
        [⟨nm, ty, ch⟩]
      = .ok (st,
          String.intercalate delimiter [date_stamp, time_stamp, "None"]
            ++ "\n",
          if db then [Event.dbInsert] else []) := by
  have he : execute_request client pga sps st ⟨nm, ty, ch⟩
      = (st, .ok none) := by
    simp [execute_request, h1, h2, h3]
  refine ⟨he, ?_⟩
  simp [get_output_row, run_requests, he, pyStr]

/-- Claim C10 witness: the unknown request type `"foo"`. -/
theorem c10_unknown_type_returns_none_witness :
    execute_request ⟨fun _ _ _ => (5 : ℚ), 30⟩ 1 1 initIrrState
        ⟨"x", "foo", 0⟩ = (initIrrState, .ok none) ∧
    get_output_row ⟨fun _ _ _ => (5 : ℚ), 30⟩ 1 1 "," "251012" "12:00:00"
        false initIrrState [⟨"x", "foo", 0⟩]
      = .ok (initIrrState,
          String.intercalate "," ["251012", "12:00:00", "None"] ++ "\n",
          []) :=
  c10_unknown_type_returns_none ⟨fun _ _ _ => (5 : ℚ), 30⟩ 1 1 ","
    "251012" "12:00:00" "x" "foo" 0 false initIrrState
    (by decide) (by decide) (by decide)

/-- Claim C7 counterexample: on 12 October 2025, the data row produced by
v0.1's `read_all_requests` (which stamps rows with `strftime('%d%m%y')`)
begins with `"121025"` — a day-month-year stamp, not the 6-digit
year-month-day stamp `"251012"` the claim requires. -/
theorem c7_v01_row_date_stamp_cex :
    read_all_requests_row_v01 "," "00:00:00" 25 10 12 []
      = "121025,00:00:00\n" ∧
    strf_ddmmyy 25 10 12 = "121025" ∧
    strf_ddmmyy 25 10 12 ≠ strf_yymmdd 25 10 12 := by
  refine ⟨?_, ?_, ?_⟩
  · decide
  · decide
  · decide

/-- Claim C7 (amended to v0.4; v0.1 stamps its data rows day-month-year as
shown by the counterexample): every v0.4 data row is the delimiter-join of
`date_stamp`, `time_stamp`, and one stringified value per request in
RequestSet order, terminated by a newline; the `strftime('%y%m%d')` date
stamp is 6 decimal digits, year then month then day; and on rotation the
output filename is
`folder ++ "/" ++ dateStamp ++ "_" ++ sensorName ++ "_" ++ sensorLocation
++ ext`. -/
theorem c7_row_and_filename_format (client : AdcRtd_Client) (pga sps : ℤ)
    (delimiter time_stamp folder sensor_name sensor_location ext
      output_filename : String) (db : Bool) (st st' : IrrState)
    (requests : List Request) (results : List (Option ℚ)) (y m d : Nat)
    (previous_date : Option String)
    (hrun : run_requests client pga sps st requests = .ok (st', results))
    (hrot : previous_date ≠ some (strf_yymmdd y m d)) :
    get_output_row client pga sps delimiter (strf_yymmdd y m d) time_stamp db
        st requests
      = .ok (st', String.intercalate delimiter
          ([strf_yymmdd y m d, time_stamp] ++ results.map pyStr) ++ "\n",
          if db then [Event.dbInsert] else []) ∧
    results.length = requests.length ∧
    (strf_yymmdd y m d).length = 6 ∧
    (∀ c ∈ (strf_yymmdd y m d).data, c.isDigit = true) ∧
    (update_output_file folder sensor_name sensor_location ext previous_date
        (strf_yymmdd y m d) output_filename).1
      = folder ++ "/" ++ (strf_yymmdd y m d ++ "_" ++ sensor_name ++ "_"
          ++ sensor_location ++ ext) := by
  refine ⟨?_, ?_, ?_, ?_, ?_⟩
  · simp [get_output_row, hrun]
  · exact run_requests_length client pga sps requests st st' results hrun
  · rfl
  · intro c hc
    have hdata : (strf_yymmdd y m d).data
        = two_digit_chars y ++ two_digit_chars m ++ two_digit_chars d := rfl
    rw [hdata] at hc
    rcases List.mem_append.mp hc with hc' | hc'
    · rcases List.mem_append.mp hc' with hc'' | hc''
      · exact two_digit_chars_digit y c hc''
      · exact two_digit_chars_digit m c hc''
    · exact two_digit_chars_digit d c hc'
  · have hne : some (strf_yymmdd y m d) ≠ previous_date := Ne.symm hrot
    simp [update_output_file, mk_output_filename, hne, String.intercalate,
      String.intercalate.go, String.append_assoc]

/-- Claim C7 witness: a concrete empty request set, date 12 October 2025,
rotation from no previous date. -/
theorem c7_row_and_filename_format_witness :
    get_output_row ⟨fun _ _ _ => (0 : ℚ), 25⟩ 1 1 "," (strf_yymmdd 25 10 12)
        "12:00:00" false initIrrState []
      = .ok (initIrrState, String.intercalate ","
          ([strf_yymmdd 25 10 12, "12:00:00"]
            ++ ([] : List (Option ℚ)).map pyStr) ++ "\n", []) ∧
    ([] : List (Option ℚ)).length = ([] : List Request).length ∧
    (strf_yymmdd 25 10 12).length = 6 ∧
    (∀ c ∈ (strf_yymmdd 25 10 12).data, c.isDigit = true) ∧
    (update_output_file "Outputs" "sensor" "location" ".csv" none
        (strf_yymmdd 25 10 12) "").1
      = "Outputs" ++ "/" ++ (strf_yymmdd 25 10 12 ++ "_" ++ "sensor" ++ "_"
          ++ "location" ++ ".csv") :=
  c7_row_and_filename_format ⟨fun _ _ _ => (0 : ℚ), 25⟩ 1 1 ","
    "12:00:00" "Outputs" "sensor" "location" ".csv" "" false initIrrState
    initIrrState [] [] 25 10 12 none rfl (by simp)

/-- Claim C4 counterexample: calling v0.4 `start_collection` with the invalid
`read_interval = 0` (connection up, no sinks) raises `ValueError` only
*after* the connection test has run — the I/O trace before the error is
`[connTest]`, not empty as the claim requires. -/
theorem c4_connection_test_precedes_validation_cex :
    start_collection_v04 true false false (.int 0) (.int 300) true
      = ([Event.connTest], some PyErr.valueError) ∧
    Event.connTest ∈ (start_collection_v04 true false false (.int 0)
        (.int 300) true).1 := by
  refine ⟨rfl, ?_⟩
  decide

/-- Claim C4 (amended): a `start_collection` call with an invalid
configuration (and a live connection) fails with a configuration error
(`TypeError`/`ValueError`, never the connection `SystemError`) whose only
preceding I/O is the initial connection test — no wait, file, upload or
database operation occurs; the connection test itself, however, runs first. -/
theorem c4_config_error_after_conn_test_only
    (dropbox_configured database_configured print_output_is_bool : Bool)
    (read_interval upload_interval : PyNum)
    (hinvalid : invalid_intervals dropbox_configured read_interval
      upload_interval = true) :
    ∃ e, start_collection_v04 true dropbox_configured database_configured
        read_interval upload_interval print_output_is_bool
      = ([Event.connTest], some e) ∧ e ≠ PyErr.systemError := by
  cases read_interval with
  | notInt => exact ⟨.typeError, rfl, by decide⟩
  | int n =>
    simp only [invalid_intervals, Bool.or_eq_true, Bool.and_eq_true,
      decide_eq_true_eq] at hinvalid
    by_cases hr : 86400 < n ∨ n ≤ 0
    · exact ⟨.valueError, by simp [start_collection_v04, hr], by decide⟩
    · rcases hinvalid with h | ⟨hdrop, hup⟩
      · exact absurd h hr
      · cases upload_interval with
        | notInt =>
          exact ⟨.typeError,
            by simp [start_collection_v04, hr, hdrop], by decide⟩
        | int m =>
          simp only [decide_eq_true_eq] at hup
          exact ⟨.valueError,
            by simp [start_collection_v04, hr, hdrop, hup], by decide⟩

/-- Claim C4 witness: `read_interval = 0` with no sinks. -/
theorem c4_config_error_after_conn_test_only_witness :
    invalid_intervals false (.int 0) (.int 300) = true ∧
    ∃ e, start_collection_v04 true false false (.int 0) (.int 300) true
        = ([Event.connTest], some e) ∧ e ≠ PyErr.systemError :=
  ⟨by decide, c4_config_error_after_conn_test_only false false true
    (.int 0) (.int 300) (by decide)⟩

/-- Claim C5: when the collection loop exits with an exception, the
`except` handler re-runs `test_connection()` (one more `connTest` event);
if it returns false the call raises the connection `SystemError`, and if it
returns true the call ends as a non-fatal stop that carries the original
exception's name. -/
theorem c5_loop_exit_outcome (conn_ok dropbox_configured
    database_configured print_output_is_bool : Bool)
    (read_interval upload_interval : PyNum) (loop_exception : String)
    (conn_after : Bool)
    (hvalid : (start_collection_v04 conn_ok dropbox_configured
        database_configured read_interval upload_interval
        print_output_is_bool).2 = none) :
    start_collection_run conn_ok dropbox_configured database_configured
        read_interval upload_interval print_output_is_bool loop_exception
        conn_after
      = ((start_collection_v04 conn_ok dropbox_configured
            database_configured read_interval upload_interval
            print_output_is_bool).1 ++ [Event.connTest],
         if conn_after then RunResult.stopped loop_exception
         else RunResult.fatal PyErr.systemError) := by
  rcases hsc : start_collection_v04 conn_ok dropbox_configured
      database_configured read_interval upload_interval
      print_output_is_bool with ⟨events, err⟩
  rw [hsc] at hvalid
  simp only at hvalid
  subst hvalid
  simp only [start_collection_run, hsc]
  cases conn_after <;> simp

/-- Claim C5 witness: a valid configuration whose loop dies with
`"ReadError"` while the connection has recovered. -/
theorem c5_loop_exit_outcome_witness :
    start_collection_run true false false (.int 60) (.int 300) true
        "ReadError" true
      = ((start_collection_v04 true false false (.int 60) (.int 300)
            true).1 ++ [Event.connTest], RunResult.stopped "ReadError") :=
  c5_loop_exit_outcome true false false true (.int 60) (.int 300)
    "ReadError" true rfl

/-- Claim C8 counterexample: with only the database sink configured and
`upload_interval = 30 < read_interval = 60`, v0.4 `start_collection` raises
no error at all (the `uploadInterval >= readInterval` check is guarded by
`if self.dropbox_settings:` alone), while the same intervals with the
dropbox sink configured do raise `ValueError`. -/
theorem c8_database_only_skips_upload_check_cex :
    (start_collection_v04 true false true (.int 60) (.int 30) true).2
      = none ∧
    (start_collection_v04 true true false (.int 60) (.int 30) true).2
      = some PyErr.valueError := by
  refine ⟨?_, ?_⟩ <;> decide

/-- Claim C8 (amended): the `uploadInterval >= readInterval` check is
enforced exactly when the dropbox remote-store sink is configured: with
dropbox configured a violation raises `ValueError`, and without dropbox the
call never inspects `upload_interval` at all (its result is the same for any
two upload intervals), whether or not a database sink is configured. -/
theorem c8_upload_check_dropbox_only (database_configured
    print_output_is_bool : Bool) (n m : ℤ)
    (upload_interval upload_interval' : PyNum)
    (hn1 : 1 ≤ n) (hn2 : n ≤ 86400) (hm : m < n) :
    start_collection_v04 true true database_configured (.int n) (.int m)
        print_output_is_bool = ([Event.connTest], some PyErr.valueError) ∧
    start_collection_v04 true false database_configured (.int n)
        upload_interval print_output_is_bool
      = start_collection_v04 true false database_configured (.int n)
          upload_interval' print_output_is_bool := by
  have hr : ¬(86400 < n ∨ n ≤ 0) := by omega
  constructor
  · simp [start_collection_v04, hr, hm]
  · simp [start_collection_v04, hr]

/-- Claim C8 witness: read interval 60, dropbox violation at 30, database-only
runs compared at upload intervals 5 and a non-integer. -/
theorem c8_upload_check_dropbox_only_witness :
    start_collection_v04 true true false (.int 60) (.int 30) true
        = ([Event.connTest], some PyErr.valueError) ∧
    start_collection_v04 true false false (.int 60) (.int 5) true
      = start_collection_v04 true false false (.int 60) PyNum.notInt true :=
  c8_upload_check_dropbox_only false true 60 30 (.int 5) .notInt
    (by decide) (by decide) (by decide)
